import Mathlib

/-!
# Verification of the climate-device command codec (`broadlink/climate.py`)

A shallow embedding, in Lean 4, of the command/response codec of the two
climate-control device classes in `src/broadlink/climate.py`:

* `hysen` — heating controller: CRC-16 framed requests/responses
  (`send_request`), status decoding (`get_full_status`), schedule encoding
  (`set_schedule`);
* `tornado` — air conditioner: target-sum checksum (`_calculate_checksum`),
  status decoding (`get_state`), command encoding (`set_advanced`).

Python byte strings are modelled as `List Nat` (each element a byte value),
Python floats arising from halving / doubling temperatures as `ℚ` (all the
arithmetic involved is exact in binary floating point, so `ℚ` is faithful),
Python exceptions as `Except` error values, and the device I/O performed by a
method as an explicit list of I/O events.  Machine arithmetic is over `Nat`
with the masks (`&&& 0xff`, `>>> 8`, …) written exactly as in the source.
-/

/-! ## CRC-16 checksum engine (heating-controller profile)

`calculate_crc16` is imported by `climate.py` from `broadlink.helpers`, which
is not part of the sources under verification.
-/

/-- One shift/feedback round of the CRC-16 loop: shift right one bit and, if
the bit shifted out was 1, xor the reflected polynomial `0xA001`. -/
def crc16_round (crc : Nat) : Nat :=
  if crc &&& 1 = 1 then (crc >>> 1) ^^^ 0xA001 else crc >>> 1

/-- `crc16_rounds n c` applies `crc16_round` `n` times to `c`. -/
def crc16_rounds : Nat → Nat → Nat
  | 0, c => c
  | n + 1, c => crc16_rounds n (crc16_round c)

/-- Absorb one input byte into the CRC state: xor it in, then run 8 rounds. -/
def crc16_update (crc b : Nat) : Nat :=
  crc16_rounds 8 (crc ^^^ b)

/-- Modelled from the spec: `calculate_crc16` from `broadlink.helpers` (the
module is not among the sources under verification; only its import and call
sites are).  Per the spec it is a "standard CRC-16 over an input byte
sequence, producing a 16-bit value emitted little-endian (low byte first)":
the standard reflected CRC-16 (initial value `0xFFFF`, reflected polynomial
`0xA001`), one byte at a time.  The theorems below do not depend on the
particular polynomial: they only use that the same deterministic function is
applied when building and when checking a frame, and that its value is a
16-bit quantity (`calculate_crc16_lt`). -/
def calculate_crc16 (data : List Nat) : Nat :=
  data.foldl crc16_update 0xFFFF

/-! ## Heating-controller frame codec (`hysen.send_request`) -/

/-- The request framing of `hysen.send_request` (climate.py lines 24–32):
a two-byte length prefix `[len(input)+2, 0x00]`, the logical payload, then
the CRC-16 of the logical payload, low byte first. -/
def hysen_build_request (input : List Nat) : List Nat :=
  let crc := calculate_crc16 input
  [input.length + 2, 0x00] ++ input ++ [crc &&& 0xFF, (crc >>> 8) &&& 0xFF]

/-- The two failure modes of `hysen.send_request`'s response check, both
raised as `ValueError` in the source: `structural` is
`('hysen_response_error', 'first byte of response is not length')` and
`integrity` is `('hysen_response_error', 'CRC check on response failed')`. -/
inductive HysenError where
  | structural
  | integrity
deriving DecidableEq

/-- The response validation of `hysen.send_request` (climate.py lines 40–47),
applied to the decrypted response payload: read the declared length from the
first byte; fail structurally if `declared + 2 > len`; recompute the CRC-16
over `payload[2:declared]` and compare it bytewise with
`payload[declared]`/`payload[declared+1]`; on a match return
`payload[2:declared]`.  (`headD`/`getD` defaults are never used under the
theorems' hypotheses, which make the indexed positions exist, matching the
positions Python would index.) -/
def hysen_parse_response (rp : List Nat) : Except HysenError (List Nat) :=
  let d := rp.headD 0
  if rp.length < d + 2 then .error .structural
  else
    let body := (rp.drop 2).take (d - 2)
    let crc := calculate_crc16 body
    if rp.getD d 0 = crc &&& 0xFF ∧ rp.getD (d + 1) 0 = (crc >>> 8) &&& 0xFF
    then .ok body
    else .error .integrity

/-! ### Generic helper lemmas -/

theorem crc16_round_lt {c : Nat} (h : c < 65536) : crc16_round c < 65536 := by
  unfold crc16_round
  have h1 : c >>> 1 < 65536 := by
    rw [Nat.shiftRight_eq_div_pow]
    omega
  split
  · have : (65536 : Nat) = 2 ^ 16 := by norm_num
    rw [this] at h1 ⊢
    exact Nat.xor_lt_two_pow h1 (by norm_num)
  · exact h1

theorem crc16_rounds_lt : ∀ (n : Nat) {c : Nat}, c < 65536 → crc16_rounds n c < 65536
  | 0, _, h => h
  | n + 1, _, h => crc16_rounds_lt n (crc16_round_lt h)

theorem crc16_update_lt {c b : Nat} (hc : c < 65536) (hb : b < 256) :
    crc16_update c b < 65536 := by
  apply crc16_rounds_lt
  have : (65536 : Nat) = 2 ^ 16 := by norm_num
  rw [this] at hc ⊢
  exact Nat.xor_lt_two_pow hc (lt_trans hb (by norm_num))

/-- The CRC state stays a 16-bit value: over byte inputs, `calculate_crc16`
is below `2^16`. -/
theorem calculate_crc16_lt {data : List Nat} (h : ∀ b ∈ data, b < 256) :
    calculate_crc16 data < 65536 := by
  unfold calculate_crc16
  have general : ∀ (l : List Nat) (c : Nat), (∀ b ∈ l, b < 256) → c < 65536 →
      l.foldl crc16_update c < 65536 := by
    intro l
    induction l with
    | nil => intro c _ hc; exact hc
    | cons x xs ih =>
        intro c hl hc
        exact ih _ (fun b hb => hl b (List.mem_cons_of_mem _ hb))
          (crc16_update_lt hc (hl x (List.mem_cons_self _ _)))
  exact general data 0xFFFF h (by norm_num)

theorem getD_append_last2 (l : List Nat) (x y d : Nat) :
    ((l ++ [x, y]).getD l.length d = x) ∧ ((l ++ [x, y]).getD (l.length + 1) d = y) := by
  induction l with
  | nil => exact ⟨rfl, rfl⟩
  | cons a as ih => simpa using ih

/-! ## Claim theorems: frame codec -/

/-- **C1** (Heating-profile frame round-trip): for every non-empty logical
payload within the length-field limit (`len + 2` must fit the single length
byte actually written by the source), parsing the frame produced by
`hysen_build_request` returns the original logical payload unchanged. -/
theorem hysen_frame_roundtrip (input : List Nat) (hne : input ≠ [])
    (hlen : input.length + 2 ≤ 255) :
    hysen_parse_response (hysen_build_request input) = .ok input := by
  set n := input.length with hn
  set c := calculate_crc16 input with hc
  have hbuild : hysen_build_request input =
      (n + 2) :: 0x00 :: (input ++ [c &&& 0xFF, (c >>> 8) &&& 0xFF]) := by
    simp [hysen_build_request]
  rw [hbuild]
  have hlength : ((n + 2) :: 0x00 :: (input ++ [c &&& 0xFF, (c >>> 8) &&& 0xFF])).length
      = n + 4 := by simp [hn]
  unfold hysen_parse_response
  rw [List.headD_cons, hlength]
  rw [if_neg (by omega)]
  have hbody : ((((n + 2) :: 0x00 ::
      (input ++ [c &&& 0xFF, (c >>> 8) &&& 0xFF])).drop 2).take (n + 2 - 2)) = input := by
    simp [hn]
  rw [hbody]
  have hx := (getD_append_last2 input (c &&& 0xFF) ((c >>> 8) &&& 0xFF) 0).1
  have hy := (getD_append_last2 input (c &&& 0xFF) ((c >>> 8) &&& 0xFF) 0).2
  have hgx : ((n + 2) :: 0x00 ::
      (input ++ [c &&& 0xFF, (c >>> 8) &&& 0xFF])).getD (n + 2) 0 = c &&& 0xFF := by
    show (0x00 :: (input ++ [c &&& 0xFF, (c >>> 8) &&& 0xFF])).getD (n + 1) 0 = _
    show (input ++ [c &&& 0xFF, (c >>> 8) &&& 0xFF]).getD n 0 = _
    exact hx
  have hgy : ((n + 2) :: 0x00 ::
      (input ++ [c &&& 0xFF, (c >>> 8) &&& 0xFF])).getD (n + 2 + 1) 0
      = (c >>> 8) &&& 0xFF := by
    show (0x00 :: (input ++ [c &&& 0xFF, (c >>> 8) &&& 0xFF])).getD (n + 2) 0 = _
    show (input ++ [c &&& 0xFF, (c >>> 8) &&& 0xFF]).getD (n + 1) 0 = _
    exact hy
  rw [if_pos ⟨hgx, hgy⟩]

/-- Witness for C1 at the concrete 6-byte example payload from the source's
own comment (`bytearray([0x01,0x06,0x00,0x02,0x10,0x00])`). -/
theorem hysen_frame_roundtrip_witness :
    ([0x01, 0x06, 0x00, 0x02, 0x10, 0x00] : List Nat) ≠ [] ∧
    ([0x01, 0x06, 0x00, 0x02, 0x10, 0x00] : List Nat).length + 2 ≤ 255 ∧
    hysen_parse_response (hysen_build_request [0x01, 0x06, 0x00, 0x02, 0x10, 0x00])
      = .ok [0x01, 0x06, 0x00, 0x02, 0x10, 0x00] :=
  ⟨by decide, by decide,
    hysen_frame_roundtrip [0x01, 0x06, 0x00, 0x02, 0x10, 0x00] (by decide) (by decide)⟩

theorem and_0xFF_eq_mod (z : Nat) : z &&& 0xFF = z % 256 := by
  have h := Nat.and_pow_two_sub_one_eq_mod z 8
  norm_num at h
  exact h

theorem and_0xFFFF_eq_mod (z : Nat) : z &&& 0xFFFF = z % 65536 := by
  have h := Nat.and_pow_two_sub_one_eq_mod z 16
  norm_num at h
  exact h

theorem shiftRight8_eq_div (z : Nat) : z >>> 8 = z / 256 := by
  rw [Nat.shiftRight_eq_div_pow]

/-- **C2** (Heating-profile response parsing): for every decrypted response
payload (a non-empty byte sequence), writing `d` for the declared length (the
first byte): if `d + 2` exceeds the actual length, parsing fails with the
structural error; otherwise, if the little-endian 16-bit trailer at positions
`d`, `d+1` differs from the CRC-16 of `payload[2:d]`, parsing fails with the
integrity error; otherwise parsing returns exactly `payload[2:d]`. -/
theorem hysen_parse_response_spec (rp : List Nat) (hne : rp ≠ [])
    (hb : ∀ b ∈ rp, b < 256) :
    (rp.headD 0 + 2 > rp.length →
      hysen_parse_response rp = .error .structural) ∧
    (rp.headD 0 + 2 ≤ rp.length →
      (rp.getD (rp.headD 0) 0 + 256 * rp.getD (rp.headD 0 + 1) 0
          ≠ calculate_crc16 ((rp.drop 2).take (rp.headD 0 - 2)) →
        hysen_parse_response rp = .error .integrity) ∧
      (rp.getD (rp.headD 0) 0 + 256 * rp.getD (rp.headD 0 + 1) 0
          = calculate_crc16 ((rp.drop 2).take (rp.headD 0 - 2)) →
        hysen_parse_response rp = .ok ((rp.drop 2).take (rp.headD 0 - 2)))) := by
  set d := rp.headD 0 with hd
  constructor
  · intro hgt
    unfold hysen_parse_response
    rw [← hd, if_pos (by omega)]
  · intro hle
    -- the two trailer positions are genuine elements of the payload
    have hdlt : d < rp.length := by omega
    have hd1lt : d + 1 < rp.length := by omega
    have hx : rp.getD d 0 = rp[d] := by
      rw [List.getD_eq_getElem?_getD, List.getElem?_eq_getElem hdlt]; rfl
    have hy : rp.getD (d + 1) 0 = rp[d + 1] := by
      rw [List.getD_eq_getElem?_getD, List.getElem?_eq_getElem hd1lt]; rfl
    have hxlt : rp.getD d 0 < 256 := by rw [hx]; exact hb _ (List.getElem_mem _)
    have hylt : rp.getD (d + 1) 0 < 256 := by rw [hy]; exact hb _ (List.getElem_mem _)
    have hclt : calculate_crc16 ((rp.drop 2).take (d - 2)) < 65536 := by
      apply calculate_crc16_lt
      intro b hbmem
      exact hb b (List.mem_of_mem_drop (List.mem_of_mem_take hbmem))
    -- bytewise comparison against the CRC ↔ 16-bit little-endian equality
    have hiff :
        (rp.getD d 0 = calculate_crc16 ((rp.drop 2).take (d - 2)) &&& 0xFF ∧
         rp.getD (d + 1) 0 = (calculate_crc16 ((rp.drop 2).take (d - 2)) >>> 8) &&& 0xFF)
        ↔ rp.getD d 0 + 256 * rp.getD (d + 1) 0
            = calculate_crc16 ((rp.drop 2).take (d - 2)) := by
      rw [and_0xFF_eq_mod, shiftRight8_eq_div, and_0xFF_eq_mod]
      constructor
      · rintro ⟨h1, h2⟩; omega
      · intro h; omega
    constructor
    · intro hne'
      unfold hysen_parse_response
      rw [← hd, if_neg (by omega), if_neg (fun hcontra => hne' (hiff.mp hcontra))]
    · intro heq
      unfold hysen_parse_response
      rw [← hd, if_neg (by omega), if_pos (hiff.mpr heq)]

/-- Witness for C2 at a concrete 4-byte response `[0x02, 0x00, 0xFF, 0xFF]`:
the declared length is 2, the logical payload is empty, and the trailer
`0xFFFF` equals the CRC-16 of the empty sequence (its initial value), so
parsing succeeds with the empty payload. -/
theorem hysen_parse_response_spec_witness :
    ([0x02, 0x00, 0xFF, 0xFF] : List Nat) ≠ [] ∧
    (∀ b ∈ ([0x02, 0x00, 0xFF, 0xFF] : List Nat), b < 256) ∧
    hysen_parse_response [0x02, 0x00, 0xFF, 0xFF] = .ok [] :=
  ⟨by decide, by decide,
    ((hysen_parse_response_spec [0x02, 0x00, 0xFF, 0xFF] (by decide) (by decide)).2
      (by decide)).2 (by decide)⟩

/-! ## Air-conditioner target-sum checksum (`tornado._calculate_checksum`) -/

/-- `tornado._calculate_checksum` (climate.py lines 215–223): sum the bytes,
even indices as-is and odd indices shifted left 8 bits, mask the sum to 16
bits, subtract from the target (default `0x20017`), and emit the low and the
high byte of the result. -/
def tornado_calculate_checksum (packet : List Nat) (target : Nat := 0x20017) :
    Nat × Nat :=
  let s := (packet.enum.map (fun iv => if iv.1 % 2 = 0 then iv.2 else iv.2 <<< 8)).sum
  let result := target - (s &&& 0xFFFF)
  (result &&& 0xFF, (result >>> 8) &&& 0xFF)

/-- The spec's description of the target-sum checksum (§4.1, restated in C3):
`S` is the sum of `b[i]` for even `i` and `b[i]*256` for odd `i`, taken
modulo `0x10000`; `r = (0x20017 - S) mod 0x10000`; the output is the two
bytes of `r`, low then high. -/
def checksum_target_sum_spec (b : List Nat) : Nat × Nat :=
  let S := (b.enum.map (fun iv => if iv.1 % 2 = 0 then iv.2 else iv.2 * 256)).sum % 0x10000
  let r := (0x20017 - S) % 0x10000
  (r % 256, r / 256)

/-- **C3** (Target-sum checksum formula): for every byte sequence, the code's
`target - (sum & 0xffff)` followed by low/high byte extraction agrees with the
spec's `(target - sum) mod 0x10000` little-endian byte pair. -/
theorem tornado_checksum_eq_spec (b : List Nat) :
    tornado_calculate_checksum b = checksum_target_sum_spec b := by
  have hmap : (fun iv : Nat × Nat => if iv.1 % 2 = 0 then iv.2 else iv.2 <<< 8)
      = (fun iv : Nat × Nat => if iv.1 % 2 = 0 then iv.2 else iv.2 * 256) := by
    funext iv
    rw [Nat.shiftLeft_eq]
  simp only [tornado_calculate_checksum, checksum_target_sum_spec, hmap,
    and_0xFFFF_eq_mod, and_0xFF_eq_mod, shiftRight8_eq_div, Prod.mk.injEq]
  constructor <;> omega

/-- The `GET_AC_INFO` command constant from `tornado._send_short_payload`
(climate.py line 231): 12 command bytes followed by the embedded trailer
`[0x1b, 0x7e]`. -/
def get_ac_info_packet : List Nat :=
  [0x0c, 0x00, 0xbb, 0x00, 0x06, 0x80, 0x00, 0x00, 0x02, 0x00, 0x21, 0x01, 0x1b, 0x7e]

/-- **C4, counterexample**: the target-sum checksum over the 12 command bytes
of the `GET_AC_INFO` constant is *not* `(0x1b, 0x7e)` (it is `(0x27, 0x7e)`):
the even/odd word-sum is `0x81f0`, so the result is
`0x20017 - 0x81f0 = 0x17e27`, whose low byte is `0x27`, not `0x1b`. -/
theorem tornado_checksum_get_ac_info_counterexample :
    tornado_calculate_checksum
        [0x0c, 0x00, 0xbb, 0x00, 0x06, 0x80, 0x00, 0x00, 0x02, 0x00, 0x21, 0x01]
      ≠ (0x1b, 0x7e) := by decide

/-- **C4, amended**: the target-sum checksum (target `0x20017`) over the 12
command bytes `[0x0c,0x00,0xbb,0x00,0x06,0x80,0x00,0x00,0x02,0x00,0x21,0x01]`
equals `(0x27, 0x7e)`, which differs in the low byte from the trailer
`[0x1b, 0x7e]` embedded in the `GET_AC_INFO` command constant: the hard-coded
trailer is not the `_calculate_checksum` value of the bytes preceding it. -/
theorem tornado_checksum_get_ac_info :
    tornado_calculate_checksum (get_ac_info_packet.take 12) = (0x27, 0x7e) ∧
    get_ac_info_packet.getD 12 0 = 0x1b ∧ get_ac_info_packet.getD 13 0 = 0x7e ∧
    ((0x27 : Nat), (0x7e : Nat)) ≠ (0x1b, 0x7e) := by decide

/-! ## Air-conditioner status decoding (`tornado.get_state`) -/

/-- The decoded A/C state record built by `tornado.get_state` (climate.py
lines 267–334).  The symbolic fields are the exact strings the source stores
in its result dict; `received_payload` mirrors the debugging key added at
lines 331–332 (present whenever the payload is truthy, i.e. non-empty). -/
structure TornadoState where
  state : Bool
  set_temp : ℚ
  swing_h : String
  swing_v : String
  mode : String
  speed : String
  sleep : Bool
  display : Bool
  health : Bool
  received_payload : Option (List Nat)
deriving DecidableEq

/-- Horizontal-swing decode (climate.py lines 272–278).  Note both source
branches test `0b111` and store `'OFF'`; no raw value decodes to `'ON'`. -/
def tornado_decode_swing_h (raw : Nat) : String :=
  if raw = 0b111 then "OFF"
  else if raw = 0b111 then "OFF"
  else "unrecognized value"

/-- Vertical-swing decode (climate.py lines 280–287). -/
def tornado_decode_swing_v (raw : Nat) : String :=
  if raw = 0b111 then "OFF"
  else if raw = 0b000 then "ON"
  else if raw ≤ 5 then toString raw
  else "unrecognized value"

/-- Mode decode (climate.py lines 289–301), applied to
`payload[0x11] >> 3 << 3`. -/
def tornado_decode_mode (m : Nat) : String :=
  if m = 0x00 then "A"
  else if m = 0x20 then "C"
  else if m = 0x40 then "D"
  else if m = 0x80 then "H"
  else if m = 0xc0 then "F"
  else "unrecognized value"

/-- Fan-speed decode (climate.py lines 303–318): a joint table over the two
speed bytes `payload[0x0f]`, `payload[0x10]`, in the source's test order. -/
def tornado_decode_speed (speed_L speed_R : Nat) : String :=
  if speed_L = 0x60 ∧ speed_R = 0x00 then "L"
  else if speed_L = 0x40 ∧ speed_R = 0x00 then "M"
  else if speed_L = 0x20 ∧ speed_R = 0x00 then "H"
  else if speed_L = 0x40 ∧ speed_R = 0x80 then "Mu"
  else if speed_R = 0x40 then "T"
  else if speed_L = 0xa0 ∧ speed_R = 0x00 then "A"
  else "unrecognized value"

/-- The pure field extraction of `tornado.get_state` (climate.py lines
267–322 and 331–332): every field is a mask/shift of a designated byte of the
32-byte decrypted payload. -/
def tornado_decode_fields (p : List Nat) : TornadoState :=
  { state := decide (p.getD 0x14 0 &&& 0x20 = 0x20)
    set_temp := ((p.getD 0x0c 0 >>> 3 : Nat) : ℚ) + 8 +
      (if p.getD 0x0e 0 &&& 0b10000000 = 0 then 0 else 1/2)
    swing_h := tornado_decode_swing_h ((p.getD 0x0d 0 &&& 0b11100000) >>> 5)
    swing_v := tornado_decode_swing_v (p.getD 0x0c 0 &&& 0b111)
    mode := tornado_decode_mode (p.getD 0x11 0 >>> 3 <<< 3)
    speed := tornado_decode_speed (p.getD 0x0f 0) (p.getD 0x10 0)
    sleep := decide (p.getD 0x1a 0 &&& 0b100 = 0b000)
    display := decide (p.getD 0x16 0 &&& 0x10 = 0x10)
    health := decide (p.getD 0x14 0 &&& 0b11 = 0b11)
    received_payload := if p = [] then none else some p }

/-- A diagnostic surfaced by `tornado.get_state` without aborting the decode:
the `print('checksum fail', …)` at climate.py line 329, carrying the two
computed checksum bytes that it formats. -/
inductive Diagnostic where
  | checksumFail (computed : Nat × Nat)
deriving DecidableEq

/-- Python exceptions raised by the modelled `tornado`/`hysen` methods. -/
inductive PyErr where
  | keyError (key : String)
  | valueError (msg : String)
  | typeError
  | assertionError
  | indexError
deriving DecidableEq

/-- `tornado.get_state` (climate.py lines 247–334), applied to the decrypted
response payload: assert the payload is 32 bytes, decode every field,
recompute the target-sum checksum over `payload[:0x19]` and compare it with
the trailer bytes at `0x19`/`0x1a` — on mismatch emit a diagnostic (the
source prints it) and still return the decoded record. -/
def tornado_get_state (p : List Nat) : Except PyErr (TornadoState × List Diagnostic) :=
  if p.length = 32 then
    let checksum := tornado_calculate_checksum (p.take 0x19)
    let diags :=
      if p.getD 0x19 0 = checksum.1 ∧ p.getD 0x1a 0 = checksum.2 then []
      else [Diagnostic.checksumFail checksum]
    .ok (tornado_decode_fields p, diags)
  else .error .assertionError

/-- **C5** (A/C checksum soft-fail): for every 32-byte A/C status payload
whose trailer bytes at `0x19`/`0x1a` do not equal the target-sum checksum of
bytes `0:0x19`, `get_state` does not abort: it returns the fully decoded
state record, with the mismatch surfaced as a diagnostic carrying the
computed checksum (the printed message), never silently dropped. -/
theorem tornado_get_state_checksum_softfail (p : List Nat) (hl : p.length = 32)
    (hm : ¬ (p.getD 0x19 0 = (tornado_calculate_checksum (p.take 0x19)).1 ∧
             p.getD 0x1a 0 = (tornado_calculate_checksum (p.take 0x19)).2)) :
    tornado_get_state p =
      .ok (tornado_decode_fields p,
           [Diagnostic.checksumFail (tornado_calculate_checksum (p.take 0x19))]) := by
  simp only [tornado_get_state]
  rw [if_pos hl, if_neg hm]

/-- Witness for C5: the all-zero 32-byte payload has trailer bytes `0`/`0`
while the computed checksum of its first 25 bytes is `(0x17, 0x00)`, a
mismatch; `get_state` still returns the decoded record plus the diagnostic. -/
theorem tornado_get_state_checksum_softfail_witness :
    (List.replicate 32 0).length = 32 ∧
    ¬ ((List.replicate 32 0).getD 0x19 0
          = (tornado_calculate_checksum ((List.replicate 32 0).take 0x19)).1 ∧
       (List.replicate 32 0).getD 0x1a 0
          = (tornado_calculate_checksum ((List.replicate 32 0).take 0x19)).2) ∧
    tornado_get_state (List.replicate 32 0) =
      .ok (tornado_decode_fields (List.replicate 32 0),
           [Diagnostic.checksumFail
              (tornado_calculate_checksum ((List.replicate 32 0).take 0x19))]) :=
  ⟨by decide, by decide,
    tornado_get_state_checksum_softfail (List.replicate 32 0) (by decide) (by decide)⟩

/-- The fan-speed byte pairs recognized by the decode table of
`tornado.get_state` (climate.py lines 305–316), including the `speed_R =
0x40` wildcard row for Turbo. -/
def knownSpeedPair (speed_L speed_R : Nat) : Prop :=
  (speed_L = 0x60 ∧ speed_R = 0x00) ∨ (speed_L = 0x40 ∧ speed_R = 0x00) ∨
  (speed_L = 0x20 ∧ speed_R = 0x00) ∨ (speed_L = 0x40 ∧ speed_R = 0x80) ∨
  speed_R = 0x40 ∨ (speed_L = 0xa0 ∧ speed_R = 0x00)

instance (speed_L speed_R : Nat) : Decidable (knownSpeedPair speed_L speed_R) := by
  unfold knownSpeedPair
  infer_instance

/-- **C10, counterexample** (to the claim as stated): the decoded fan-speed
value does not carry the raw value.  Two 32-byte payloads that differ in the
speed byte at `0x0f` (raw pairs `(0,0)` and `(1,0)`, neither in the table)
both decode to the same constant sentinel `"unrecognized value"`, so the
result is not an `Unrecognized(raw)` variant carrying the raw bytes. -/
theorem tornado_speed_unrecognized_counterexample :
    (tornado_decode_fields (List.replicate 32 0)).speed = "unrecognized value" ∧
    (tornado_decode_fields
        (List.replicate 15 0 ++ 1 :: List.replicate 16 0)).speed
      = "unrecognized value" ∧
    (List.replicate 15 0 ++ 1 :: List.replicate 16 0).getD 0x0f 0
      ≠ (List.replicate 32 (0 : Nat)).getD 0x0f 0 ∧
    (List.replicate 15 0 ++ 1 :: List.replicate 16 0).length = 32 := by
  refine ⟨by decide, by decide, by decide, by decide⟩

/-- **C10, amended**: for every 32-byte A/C status payload whose fan-speed
byte pair (offsets `0x0f`, `0x10`) matches none of the known table entries,
`get_state` does not crash: it returns a decoded record whose fan-speed field
is the distinguished sentinel `"unrecognized value"` (not carrying the raw
bytes), which is none of the known symbolic variants. -/
theorem tornado_speed_unrecognized (p : List Nat) (hl : p.length = 32)
    (hk : ¬ knownSpeedPair (p.getD 0x0f 0) (p.getD 0x10 0)) :
    ∃ st diags, tornado_get_state p = .ok (st, diags) ∧
      st.speed = "unrecognized value" ∧
      st.speed ∉ (["L", "M", "H", "Mu", "T", "A"] : List String) := by
  have hspeed : (tornado_decode_fields p).speed = "unrecognized value" := by
    unfold knownSpeedPair at hk
    push_neg at hk
    obtain ⟨h1, h2, h3, h4, h5, h6⟩ := hk
    show tornado_decode_speed (p.getD 0x0f 0) (p.getD 0x10 0) = _
    unfold tornado_decode_speed
    rw [if_neg (by tauto), if_neg (by tauto), if_neg (by tauto), if_neg (by tauto),
      if_neg h5, if_neg (by tauto)]
  refine ⟨tornado_decode_fields p,
    (if p.getD 0x19 0 = (tornado_calculate_checksum (p.take 0x19)).1 ∧
        p.getD 0x1a 0 = (tornado_calculate_checksum (p.take 0x19)).2 then []
     else [Diagnostic.checksumFail (tornado_calculate_checksum (p.take 0x19))]),
    ?_, hspeed, ?_⟩
  · simp only [tornado_get_state]
    rw [if_pos hl]
  · rw [hspeed]
    decide

/-- Witness for C10 at the all-zero 32-byte payload, whose speed byte pair
`(0, 0)` is in none of the table rows. -/
theorem tornado_speed_unrecognized_witness :
    (List.replicate 32 0).length = 32 ∧
    ¬ knownSpeedPair ((List.replicate 32 0).getD 0x0f 0)
        ((List.replicate 32 0).getD 0x10 0) ∧
    ∃ st diags, tornado_get_state (List.replicate 32 0) = .ok (st, diags) ∧
      st.speed = "unrecognized value" ∧
      st.speed ∉ (["L", "M", "H", "Mu", "T", "A"] : List String) :=
  ⟨by decide, by decide,
    tornado_speed_unrecognized (List.replicate 32 0) (by decide) (by decide)⟩

/-! ## Heating-controller calibration offset (`hysen.get_full_status`) -/

/-- The `room_temp_adj` decode of `hysen.get_full_status` (climate.py lines
79–81): build the 16-bit big-endian value from payload bytes 13 and 14,
divide by 2.0, and — if the *divided* value exceeds 32767 — replace it by
`32767 - value`. -/
def hysen_room_temp_adj (b13 b14 : Nat) : ℚ :=
  let adj : ℚ := (((b13 <<< 8) + b14 : Nat) : ℚ) / 2
  if adj > 32767 then 32767 - adj else adj

/-- **C8, counterexample** (to the claim as stated): at raw value
`0x8000 = 32768` (bytes `0x80`, `0x00`), which exceeds 32767, the code does
*not* apply the mirror correction: it decodes `32768 / 2 = 16384`, not the
corrected `32767 - 16384 = 16383` — because the source compares the *halved*
value, not the raw value, against 32767. -/
theorem hysen_room_temp_adj_counterexample :
    hysen_room_temp_adj 0x80 0x00 = 16384 ∧
    hysen_room_temp_adj 0x80 0x00 ≠ 32767 - (((0x80 * 256 + 0x00 : Nat) : ℚ)) / 2 := by
  have heval : hysen_room_temp_adj 0x80 0x00 = 16384 := by
    simp only [hysen_room_temp_adj, Nat.shiftLeft_eq]
    norm_num
  refine ⟨heval, ?_⟩
  rw [heval]
  norm_num

/-- **C8, amended**: the decoded calibration offset is the 16-bit big-endian
value `raw = b13 * 256 + b14` divided by 2.0, with the mirror correction
(replacing the value by `32767 -` the value) applied exactly when the
*halved* value exceeds 32767, i.e. only for `raw = 65535`, where the result
is `32767 - 32767.5 = -0.5`; for every `raw ≤ 65534` the decoded offset is
simply `raw / 2.0` with no correction. -/
theorem hysen_room_temp_adj_spec (b13 b14 : Nat) (h13 : b13 < 256) (h14 : b14 < 256) :
    hysen_room_temp_adj b13 b14 =
      if b13 * 256 + b14 = 65535 then -1 / 2
      else ((b13 * 256 + b14 : Nat) : ℚ) / 2 := by
  simp only [hysen_room_temp_adj, Nat.shiftLeft_eq]
  have h2 : b13 * 2 ^ 8 + b14 = b13 * 256 + b14 := by norm_num
  rw [h2]
  by_cases hmax : b13 * 256 + b14 = 65535
  · rw [hmax, if_pos rfl]
    norm_num
  · rw [if_neg hmax, if_neg]
    intro hgt
    have hcast : ((b13 * 256 + b14 : Nat) : ℚ) ≤ 65534 := by
      exact_mod_cast (by omega : b13 * 256 + b14 ≤ 65534)
    rw [gt_iff_lt] at hgt
    linarith

/-- Witness for C8 at bytes `(0x01, 0x02)`: raw value `258`, below the
correction threshold, decodes to `129`. -/
theorem hysen_room_temp_adj_spec_witness :
    (0x01 : Nat) < 256 ∧ (0x02 : Nat) < 256 ∧
    hysen_room_temp_adj 0x01 0x02 =
      (if 0x01 * 256 + 0x02 = 65535 then -1 / 2
       else ((0x01 * 256 + 0x02 : Nat) : ℚ) / 2) :=
  ⟨by decide, by decide, hysen_room_temp_adj_spec 0x01 0x02 (by decide) (by decide)⟩

/-! ## Heating-controller schedule encoding (`hysen.set_schedule`) -/

/-- One schedule entry, the shape of the dicts `set_schedule` consumes:
`{'start_hour': …, 'start_minute': …, 'temp': …}`. -/
structure ScheduleEntry where
  start_hour : Nat
  start_minute : Nat
  temp : ℚ
deriving DecidableEq

/-- Python's `int()` truncation toward zero, on the exact rationals that
model the float temperatures. -/
def int_py (q : ℚ) : Int :=
  q.num.tdiv (q.den : Int)

/-- Python list indexing `l[i]`: the element when `i` is in range, an
`IndexError` otherwise. -/
def entryGet (l : List ScheduleEntry) (i : Nat) : Except PyErr ScheduleEntry :=
  match l.get? i with
  | some e => .ok e
  | Option.none => .error .indexError

/-- The `for i in range(i₀, i₀+k)` loops of `set_schedule` (climate.py lines
186–201), generalized over the two bytes-per-entry emitters: visit indices
`i, i+1, …, i+k-1` of `l` in order, appending `emit l[i]` for each, and
propagate the `IndexError` of the first out-of-range index. -/
def scheduleLoop (emit : ScheduleEntry → List Int) (l : List ScheduleEntry) :
    Nat → Nat → Except PyErr (List Int)
  | _, 0 => .ok []
  | i, k + 1 => do
    let e ← entryGet l i
    let rest ← scheduleLoop emit l (i + 1) k
    .ok (emit e ++ rest)

/-- The per-entry bytes of the two time loops (climate.py lines 186–193):
start hour then start minute. -/
def scheduleTimePair (e : ScheduleEntry) : List Int :=
  [(e.start_hour : Int), (e.start_minute : Int)]

/-- The per-entry byte of the two temperature loops (climate.py lines
196–201): `int(temp * 2)`. -/
def scheduleTempByte (e : ScheduleEntry) : List Int :=
  [int_py (e.temp * 2)]

/-- `hysen.set_schedule` (climate.py lines 179–203): the command frame passed
to `send_request`, built as the magic 7-byte header followed by weekday start
times (indices 0–5), weekend start times (indices 0–1), weekday temperatures
(indices 0–5) and weekend temperatures (indices 0–1).  A raised `IndexError`
(`.error .indexError`) aborts the build, so no frame is sent; an `.ok` result
is handed to `send_request` and transmitted.  No length check is performed
on either input list. -/
def hysen_set_schedule (weekday weekend : List ScheduleEntry) :
    Except PyErr (List Int) := do
  let wdTimes ← scheduleLoop scheduleTimePair weekday 0 6
  let weTimes ← scheduleLoop scheduleTimePair weekend 0 2
  let wdTemps ← scheduleLoop scheduleTempByte weekday 0 6
  let weTemps ← scheduleLoop scheduleTempByte weekend 0 2
  .ok ([0x01, 0x10, 0x00, 0x0a, 0x00, 0x0c, 0x18]
    ++ wdTimes ++ weTimes ++ wdTemps ++ weTemps)

/-- The frame that `set_schedule` sends, described from its inputs: header,
flattened start-time pairs, then temperature bytes. -/
def schedule_frame (wd we : List ScheduleEntry) : List Int :=
  [0x01, 0x10, 0x00, 0x0a, 0x00, 0x0c, 0x18]
  ++ (wd.map scheduleTimePair).flatten ++ (we.map scheduleTimePair).flatten
  ++ (wd.map scheduleTempByte).flatten ++ (we.map scheduleTempByte).flatten

theorem scheduleLoop_ok (emit : ScheduleEntry → List Int) (l : List ScheduleEntry) :
    ∀ (k i : Nat), i + k ≤ l.length →
    scheduleLoop emit l i k = .ok (((l.drop i).take k).map emit).flatten := by
  intro k
  induction k with
  | zero => intro i _; simp [scheduleLoop]
  | succ k ih =>
      intro i h
      have hi : i < l.length := by omega
      have hget : l.get? i = some l[i] := by
        rw [List.get?_eq_getElem?, List.getElem?_eq_getElem hi]
      have hdrop : l.drop i = l[i] :: l.drop (i + 1) := List.drop_eq_getElem_cons hi
      rw [scheduleLoop, entryGet, hget]
      show (do
        let rest ← scheduleLoop emit l (i + 1) k
        Except.ok (emit l[i] ++ rest)) = _
      rw [ih (i + 1) (by omega), hdrop, List.take_succ_cons, List.map_cons,
        List.flatten_cons]
      rfl

theorem scheduleLoop_err (emit : ScheduleEntry → List Int) (l : List ScheduleEntry) :
    ∀ (k i : Nat), 0 < k → l.length < i + k →
    scheduleLoop emit l i k = .error .indexError := by
  intro k
  induction k with
  | zero => intro i h0 _; omega
  | succ k ih =>
      intro i _ h
      by_cases hi : i < l.length
      · have hget : l.get? i = some l[i] := by
          rw [List.get?_eq_getElem?, List.getElem?_eq_getElem hi]
        rw [scheduleLoop, entryGet, hget]
        show (do
          let rest ← scheduleLoop emit l (i + 1) k
          Except.ok (emit l[i] ++ rest)) = _
        rw [ih (i + 1) (by omega) (by omega)]
        rfl
      · have hget : l.get? i = Option.none := by
          rw [List.get?_eq_getElem?, List.getElem?_eq_none]
          omega
        rw [scheduleLoop, entryGet, hget]
        rfl

/-- **C9, counterexample** (to the claim as stated): an over-long weekday
list is *not* rejected.  With 7 weekday entries (the 7th being
`{start_hour 7, temp 99}`) and 2 weekend entries, `set_schedule` silently
ignores the 7th entry — the loops only read indices 0–5 — and produces (and
hence sends) a frame containing only the first six weekday entries. -/
theorem hysen_set_schedule_overlong_counterexample :
    ([⟨1, 0, 10⟩, ⟨2, 0, 10⟩, ⟨3, 0, 10⟩, ⟨4, 0, 10⟩, ⟨5, 0, 10⟩, ⟨6, 0, 10⟩,
        ⟨7, 0, 99⟩] : List ScheduleEntry).length ≠ 6 ∧
    hysen_set_schedule
        [⟨1, 0, 10⟩, ⟨2, 0, 10⟩, ⟨3, 0, 10⟩, ⟨4, 0, 10⟩, ⟨5, 0, 10⟩, ⟨6, 0, 10⟩,
          ⟨7, 0, 99⟩]
        [⟨8, 0, 10⟩, ⟨9, 0, 10⟩]
      = .ok [0x01, 0x10, 0x00, 0x0a, 0x00, 0x0c, 0x18,
             1, 0, 2, 0, 3, 0, 4, 0, 5, 0, 6, 0,
             8, 0, 9, 0,
             20, 20, 20, 20, 20, 20,
             20, 20] := by
  refine ⟨by decide, ?_⟩
  unfold hysen_set_schedule
  rw [scheduleLoop_ok scheduleTimePair _ 6 0 (by decide),
    scheduleLoop_ok scheduleTimePair _ 2 0 (by decide),
    scheduleLoop_ok scheduleTempByte _ 6 0 (by decide),
    scheduleLoop_ok scheduleTempByte _ 2 0 (by decide)]
  norm_num [scheduleTimePair, scheduleTempByte, int_py]
  rfl

/-- **C9, amended**: `set_schedule` builds and sends a frame exactly when the
weekday list has at least 6 entries and the weekend list at least 2 — using
only the first 6 resp. 2 entries, so over-long input is silently truncated —
and otherwise raises `IndexError` during frame assembly, before any frame is
sent (a too-short list is never padded). -/
theorem hysen_set_schedule_spec (wd we : List ScheduleEntry) :
    hysen_set_schedule wd we =
      if 6 ≤ wd.length ∧ 2 ≤ we.length
      then .ok (schedule_frame (wd.take 6) (we.take 2))
      else .error .indexError := by
  by_cases h6 : 6 ≤ wd.length
  · by_cases h2 : 2 ≤ we.length
    · rw [if_pos ⟨h6, h2⟩]
      unfold hysen_set_schedule
      rw [scheduleLoop_ok scheduleTimePair wd 6 0 (by omega),
        scheduleLoop_ok scheduleTimePair we 2 0 (by omega),
        scheduleLoop_ok scheduleTempByte wd 6 0 (by omega),
        scheduleLoop_ok scheduleTempByte we 2 0 (by omega)]
      rfl
    · rw [if_neg (by tauto)]
      unfold hysen_set_schedule
      rw [scheduleLoop_ok scheduleTimePair wd 6 0 (by omega),
        scheduleLoop_err scheduleTimePair we 2 0 (by omega) (by omega)]
      rfl
  · rw [if_neg (by tauto)]
    unfold hysen_set_schedule
    rw [scheduleLoop_err scheduleTimePair wd 6 0 (by omega) (by omega)]
    rfl

/-! ## Air-conditioner command encoding (`tornado.set_advanced`)

`set_advanced` first performs device I/O (`self.get_state()`) to fill
unspecified arguments, and only then starts validating.  Its argument dict
`args = locals(); args.pop('self')` has exactly the nine lower-case parameter
names as keys, but the validation code indexes `args['swing_H']` and
`args['swing_V']` (capital letters), so the first of those lookups raises
`KeyError` on every call that passes the temperature assertion.  The model
makes the I/O explicit as a trace of events and the dict explicit as an
association list, so the key mismatch is represented exactly.
-/

/-- A device I/O action performed by `tornado.set_advanced`: the current-state
fetch (`self.get_state()` at climate.py line 372, which sends a
`GET_STATES` request) or the transmission of a command packet
(`self.send_packet(0x6a, …)` at line 449). -/
inductive IOEvent where
  | getStateFetch
  | sendPacket (payload : List Nat)
deriving DecidableEq

/-- A Python value as passed to / stored by `set_advanced`: `None`, a bool,
a number (exact rational standing for int/float), a string, or a byte
string. -/
inductive PyVal where
  | none
  | bool (b : Bool)
  | num (q : ℚ)
  | str (s : String)
  | bytes (bs : List Nat)
deriving DecidableEq

/-- Python dict subscription `d[k]` on a string-keyed dict: the value if the
key is present, `KeyError` otherwise. -/
def dictGet (d : List (String × PyVal)) (k : String) : Except PyErr PyVal :=
  match d.lookup k with
  | some v => .ok v
  | Option.none => .error (.keyError k)

/-- The dict returned by `tornado.get_state` (climate.py lines 267–332), as
consulted by `set_advanced` to fill unspecified arguments: the nine decoded
fields under their lower-case keys, plus the `received_payload` debugging key
when present. -/
def tornado_state_dict (s : TornadoState) : List (String × PyVal) :=
  [("state", PyVal.bool s.state), ("set_temp", PyVal.num s.set_temp),
   ("swing_h", PyVal.str s.swing_h), ("swing_v", PyVal.str s.swing_v),
   ("mode", PyVal.str s.mode), ("speed", PyVal.str s.speed),
   ("sleep", PyVal.bool s.sleep), ("display", PyVal.bool s.display),
   ("health", PyVal.bool s.health)]
  ++ (match s.received_payload with
      | some b => [("received_payload", PyVal.bytes b)]
      | Option.none => [])

/-- The merge loop of `set_advanced` (climate.py lines 370–375):
`args = locals()` minus `self` — the nine parameters under their lower-case
names, in parameter order — with every `None` value replaced by the
corresponding field of the freshly fetched state.  (All nine keys exist in
`tornado_state_dict`, so the `getD` default is never used.) -/
def mergeArgs (state mode set_temp speed swing_v swing_h sleep display health : PyVal)
    (dev : TornadoState) : List (String × PyVal) :=
  let rs := tornado_state_dict dev
  [("state", state), ("mode", mode), ("set_temp", set_temp), ("speed", speed),
   ("swing_v", swing_v), ("swing_h", swing_h), ("sleep", sleep),
   ("display", display), ("health", health)].map
    (fun kv => (kv.1, if kv.2 = PyVal.none then (rs.lookup kv.1).getD PyVal.none else kv.2))

/-- Python numeric coercion for comparisons: numbers compare as themselves,
bools as 0/1; comparing `None`, a string or bytes against a number raises
`TypeError`. -/
def pyToNum : PyVal → Option ℚ
  | .num q => some q
  | .bool b => some (if b then 1 else 0)
  | _ => Option.none

/-- The assertion expression of climate.py line 382:
`(t >= 16) and (t <= 32) and ((t * 2) % 1 == 0)`, where `(t * 2) % 1 == 0`
holds exactly when `t * 2` is an integer (denominator 1). -/
def pyAssertTemp (t : PyVal) : Except PyErr Bool :=
  match pyToNum t with
  | some q => .ok (decide (16 ≤ q) && decide (q ≤ 32) && decide ((q * 2).den = 1))
  | Option.none => .error .typeError

/-- The merged value that `args['set_temp']` holds after the merge loop: the
caller's value unless it was `None`, in which case the fetched state's
`set_temp`. -/
def mergedSetTemp (set_temp : PyVal) (dev : TornadoState) : PyVal :=
  if set_temp = PyVal.none then PyVal.num dev.set_temp else set_temp

/-- Continuation of `set_advanced` after a hypothetical *successful* lookup
of `args['swing_H']` (climate.py lines 384–398).  This branch is unreachable
for every input — the merged dict only has the lower-case key `"swing_h"`,
so `dictGet args "swing_H"` always fails — but it is modelled one step
further for fidelity: the horizontal-swing comparison chain (lines 384–389)
and the equally doomed lookup of `args['swing_V']` (line 391).  The code past
that second always-failing lookup (speed/mode validation, payload assembly,
checksum, transmission at lines 400–452) is doubly dead; the value returned
in the final, provably unreachable `.ok` branch below is arbitrary and no
theorem depends on it. -/
def tornado_set_advanced_swingH (sH : PyVal) (args : List (String × PyVal)) :
    List IOEvent × Except PyErr (List Nat) :=
  let swingHRes : Except PyErr Nat :=
    if sH = PyVal.str "OFF" then .ok 0b111
    else if sH = PyVal.str "ON" then .ok 0b000
    else .error (.valueError "unrecognized swing horizontal value")
  match swingHRes with
  | .error e => ([.getStateFetch], .error e)
  | .ok _ =>
    match dictGet args "swing_V" with
    | .error e => ([.getStateFetch], .error e)
    | .ok _ => ([.getStateFetch], .error (.keyError "swing_V"))

/-- The tail of `set_advanced` from the assertion on (climate.py lines
382–384): branch on the evaluated assertion expression — propagating a
`TypeError` from a non-numeric comparison, raising `AssertionError` when the
condition is false — then look up `args['swing_H']`. -/
def tornado_set_advanced_after_assert (assertRes : Except PyErr Bool)
    (args : List (String × PyVal)) : List IOEvent × Except PyErr (List Nat) :=
  match assertRes with
  | .error e => ([.getStateFetch], .error e)
  | .ok false => ([.getStateFetch], .error .assertionError)
  | .ok true =>
    match dictGet args "swing_H" with
    | .error e => ([.getStateFetch], .error e)
    | .ok sH => tornado_set_advanced_swingH sH args

/-- `tornado.set_advanced` (climate.py lines 354–452), with the successful
current-state fetch `received_state = self.get_state()` (line 372, the first
I/O event) supplied as `dev`: merge the arguments with the fetched state,
build the constant payload template (lines 377–380, pure and not observable
before transmission), evaluate the temperature assertion, then index
`args['swing_H']`.  The result pairs the I/O-event trace with the outcome:
any transmission would appear as a `sendPacket` event. -/
def tornado_set_advanced
    (state mode set_temp speed swing_v swing_h sleep display health : PyVal)
    (dev : TornadoState) : List IOEvent × Except PyErr (List Nat) :=
  let args := mergeArgs state mode set_temp speed swing_v swing_h sleep display health dev
  match dictGet args "set_temp" with
  | .error e => ([.getStateFetch], .error e)
  | .ok t => tornado_set_advanced_after_assert (pyAssertTemp t) args

/-- The device state decoded from an all-zero 32-byte status payload, used as
a concrete fetched state. -/
def devZero : TornadoState :=
  tornado_decode_fields (List.replicate 32 0)

/-- **C7** (implicit; `set_advanced` always raises `KeyError('swing_H')`):
for every combination of caller arguments and fetched device state whose
merged temperature passes the range assertion, `set_advanced` raises
`KeyError` on the lookup of `'swing_H'` — the merged dict only has the
lower-case key `'swing_h'` — after the current-state fetch (the only I/O
event in the trace) and before any swing/speed/mode validation, payload
assembly, checksum computation or transmission: the trace contains no
`sendPacket` event, so no set command is ever sent. -/
theorem tornado_set_advanced_always_keyerror
    (state mode set_temp speed swing_v swing_h sleep display health : PyVal)
    (dev : TornadoState)
    (hT : pyAssertTemp (mergedSetTemp set_temp dev) = .ok true) :
    tornado_set_advanced state mode set_temp speed swing_v swing_h sleep display health dev
      = ([IOEvent.getStateFetch], .error (PyErr.keyError "swing_H")) := by
  have hred : tornado_set_advanced state mode set_temp speed swing_v swing_h
        sleep display health dev
      = tornado_set_advanced_after_assert (pyAssertTemp (mergedSetTemp set_temp dev))
          (mergeArgs state mode set_temp speed swing_v swing_h sleep display health dev)
      := rfl
  rw [hred, hT]
  rfl

/-- Witness for C7: calling `set_advanced` with only `set_temp = 20`
specified (all other arguments `None`), against the all-zero device state,
yields the `KeyError` after the single state-fetch I/O event. -/
theorem tornado_set_advanced_always_keyerror_witness :
    pyAssertTemp (mergedSetTemp (PyVal.num 20) devZero) = .ok true ∧
    tornado_set_advanced PyVal.none PyVal.none (PyVal.num 20) PyVal.none PyVal.none
        PyVal.none PyVal.none PyVal.none PyVal.none devZero
      = ([IOEvent.getStateFetch], .error (PyErr.keyError "swing_H")) := by
  have hT : pyAssertTemp (mergedSetTemp (PyVal.num 20) devZero) = .ok true := by
    have hm : mergedSetTemp (PyVal.num 20) devZero = PyVal.num 20 := rfl
    rw [hm]
    show Except.ok (decide ((16 : ℚ) ≤ 20) && decide ((20 : ℚ) ≤ 32) &&
      decide (((20 : ℚ) * 2).den = 1)) = Except.ok true
    norm_num
  exact ⟨hT, tornado_set_advanced_always_keyerror PyVal.none PyVal.none (PyVal.num 20)
    PyVal.none PyVal.none PyVal.none PyVal.none PyVal.none PyVal.none devZero hT⟩

/-- **C6** (supporting evaluation for the code bug): a fully specified,
entirely valid call — `state=True, mode='C', set_temp=24, speed='L',
swing_v='OFF', swing_h='OFF', sleep=False, display=True, health=False` —
does not validate anything and sends nothing: after the current-state fetch
(device I/O, performed *before* any validation), it raises
`KeyError('swing_H')`.  No `InvalidParameter`-style `ValueError` is ever
reached, for invalid and valid symbolic arguments alike. -/
theorem tornado_set_advanced_validation_unreachable :
    tornado_set_advanced (PyVal.bool true) (PyVal.str "C") (PyVal.num 24)
        (PyVal.str "L") (PyVal.str "OFF") (PyVal.str "OFF") (PyVal.bool false)
        (PyVal.bool true) (PyVal.bool false) devZero
      = ([IOEvent.getStateFetch], .error (PyErr.keyError "swing_H")) := by
  have hT : pyAssertTemp (mergedSetTemp (PyVal.num 24) devZero) = .ok true := by
    have hm : mergedSetTemp (PyVal.num 24) devZero = PyVal.num 24 := rfl
    rw [hm]
    show Except.ok (decide ((16 : ℚ) ≤ 24) && decide ((24 : ℚ) ≤ 32) &&
      decide (((24 : ℚ) * 2).den = 1)) = Except.ok true
    norm_num
  have hred : tornado_set_advanced (PyVal.bool true) (PyVal.str "C") (PyVal.num 24)
        (PyVal.str "L") (PyVal.str "OFF") (PyVal.str "OFF") (PyVal.bool false)
        (PyVal.bool true) (PyVal.bool false) devZero
      = tornado_set_advanced_after_assert
          (pyAssertTemp (mergedSetTemp (PyVal.num 24) devZero))
          (mergeArgs (PyVal.bool true) (PyVal.str "C") (PyVal.num 24) (PyVal.str "L")
            (PyVal.str "OFF") (PyVal.str "OFF") (PyVal.bool false) (PyVal.bool true)
            (PyVal.bool false) devZero) := rfl
  rw [hred, hT]
  rfl
